import Mathlib

/-!
Shallow embedding of the dialogue orchestration engine of
`backend/booking_graph.py` (with `backend/tool_schemas.py` and
`backend/custom_tools.py`), the core specified in `spec.md`.

Conventions of the embedding:
* Python `Optional[T]` becomes `Option T`; Python string truthiness
  (`if s:`) becomes `s ≠ ""`, and truthiness of an `Optional[str]` is
  `pyTruthy`.
* Every LLM / external call goes through an explicit `Oracle`; a call
  that raises an exception is modelled by the oracle returning `none`.
* `str.lower()` and `str.strip()` are modelled by `pyLower` / `pyStrip`
  (ASCII case folding, which is all the routing logic compares).
* The LangGraph `StateGraph` is modelled by the `Node` type, the node
  functions, the routing functions and the `step` function; `step`
  returns `none` when a node raises an unhandled exception (only
  `classify_intent_node` can, since its LLM call is not wrapped in
  try/except).
-/

/-- ASCII lower-casing of one character, as Python `str.lower` acts on the
ASCII range used by the routing logic. -/
def lowerChar (c : Char) : Char :=
  if c.toNat ≥ 65 ∧ c.toNat ≤ 90 then Char.ofNat (c.toNat + 32) else c

/-- Model of Python `str.lower()`. -/
def pyLower (s : String) : String := ⟨s.data.map lowerChar⟩

/-- Model of Python `str.strip()`. -/
def pyStrip (s : String) : String :=
  ⟨((s.data.dropWhile Char.isWhitespace).reverse.dropWhile Char.isWhitespace).reverse⟩

/-- Python `needle in hay` on lists of characters. -/
def listContains (needle : List Char) : List Char → Bool
  | [] => needle == []
  | c :: rest => needle.isPrefixOf (c :: rest) || listContains needle rest

/-- Python substring test `needle in hay`. -/
def strContains (hay needle : String) : Bool := listContains needle.data hay.data

/-- Python truthiness of an `Optional[str]` value: `None` and `""` are falsy. -/
def pyTruthy : Option String → Bool
  | none => false
  | some v => !(v == "")

/-- Python f-string interpolation of an `Optional[str]`: `None` prints as "None". -/
def pyShowOpt : Option String → String
  | none => "None"
  | some v => v

/-- Messages of the `conversation_history` (langchain message classes). -/
inductive Message where
  | human (content : String)
  | ai (content : String)
  | system (content : String)
deriving DecidableEq, Repr

/-- Content of the last message of the history when it is a `HumanMessage`
(the Python pattern `history and isinstance(history[-1], HumanMessage)`). -/
def lastHuman : List Message → Option String
  | [] => none
  | ms =>
    match ms.getLast? with
    | some (Message.human c) => some c
    | _ => none

/-- Last human message content, defaulting to `""` (pattern used by the
collect nodes and `route_after_summary_prompt`). -/
def lastHumanContent (ms : List Message) : String := (lastHuman ms).getD ""

/-- `AppointmentSchema` of `backend/tool_schemas.py`. -/
structure AppointmentSchema where
  service_type : String
  date : String
  time : String
  details : Option String
deriving DecidableEq, Repr

/-- `TicketSchema` of `backend/tool_schemas.py` (`priority` is
`Optional[str]` with default `"medium"`). -/
structure TicketSchema where
  issue_type : String
  description : String
  priority : Option String
deriving DecidableEq, Repr

/-- The fresh appointment struct `AppointmentSchema(service_type="", date="",
time="", details=None)` created by `classify_intent_node` and
`collect_appointment_details_node`. -/
def freshAppointment : AppointmentSchema := ⟨"", "", "", none⟩

/-- The fresh ticket struct `TicketSchema(issue_type="", description="",
priority="medium")` created by `classify_intent_node` and
`collect_ticket_details_node`. -/
def freshTicket : TicketSchema := ⟨"", "", some "medium"⟩

/-- `BookingGraphState` of `backend/booking_graph.py`. -/
structure BookingGraphState where
  conversation_history : List Message
  user_request_type : Option String
  appointment_details : Option AppointmentSchema
  appointment_slot_service_type_asked : Bool
  appointment_slot_date_asked : Bool
  appointment_slot_time_asked : Bool
  appointment_slot_details_asked : Bool
  ticket_details : Option TicketSchema
  ticket_slot_issue_type_asked : Bool
  ticket_slot_description_asked : Bool
  ticket_slot_priority_asked : Bool
  confirmation_summary : Option String
  final_tool_response : Option String
  interaction_count : Nat
  current_ai_response : Option String
deriving DecidableEq, Repr

/-- External collaborators: the LLM gateway (`chain.invoke`, returning
`none` when the call raises), the RAG chain, the plain chat model, and the
two structured tools (`none` models `.invoke` raising, caught by
`execute_tool_node`). -/
structure Oracle where
  complete : String → String → Option String
  ragAvailable : Bool
  rag : String → List Message → Option String
  chat : List Message → Option String
  invokeSchedule : AppointmentSchema → Option String
  invokeTicket : TicketSchema → Option String

/-- Effective context string: Python `context or "not specified"`. -/
def effContext : Option String → String
  | none => "not specified"
  | some c => if c == "" then "not specified" else c

/-- The `field_prompts` table of `extract_info_with_llm`, with the
`.format(context=...)` substitution applied (fields without a placeholder
ignore the context). Returns `none` for an unknown field name. -/
def fieldInstruction (field_name : String) (context : String) : Option String :=
  if field_name == "service_type" then
    some "Extract the type of service requested for an appointment. Examples: \x27translation\x27, \x27interpretation\x27, \x27consultation\x27. If multiple, pick the most prominent or first mentioned."
  else if field_name == "date" then
    some ("Extract the date for the appointment. Try to format as YYYY-MM-DD if possible, but also accept relative dates like \x27tomorrow\x27, \x27next Monday\x27. Context: " ++ context)
  else if field_name == "time" then
    some ("Extract the time for the appointment. Try to format as HH:MM or include AM/PM. Context: " ++ context)
  else if field_name == "details" then
    some ("Extract any additional details, notes, or specific requests for the appointment. If the user says \x27no\x27, \x27none\x27, \x27not applicable\x27, or similar, consider it as no details and respond with \x27None\x27. Context: " ++ context)
  else if field_name == "issue_type" then
    some ("Extract the type or category of the issue for a support ticket. Examples: \x27technical problem\x27, \x27billing inquiry\x27, \x27service question\x27, \x27account access\x27. Context: " ++ context)
  else if field_name == "description" then
    some ("Extract the detailed description of the issue for a support ticket. This should be a comprehensive explanation of the problem or request. Context: " ++ context)
  else if field_name == "priority" then
    some ("Extract the priority for a support ticket (e.g., \x27low\x27, \x27medium\x27, \x27high\x27). If not mentioned, or if unclear, it\x27s okay to respond \x27None\x27. Context: " ++ context)
  else if field_name == "confirmation" then
    some "The user is being asked to confirm details previously summarized. Does the user\x27s message mean \x27yes\x27, \x27confirm\x27, \x27ok\x27, \x27proceed\x27, \x27correct\x27, \x27yep\x27, \x27yeah\x27, \x27sounds good\x27, \x27y\x27? Respond only with \x27yes\x27 or \x27no\x27."
  else none

/-- System message built by `extract_info_with_llm` around a field
instruction. -/
def extractionSystemMsg (instruction : String) : String :=
  "You are an information extraction assistant. " ++ instruction ++
    " Respond with only the extracted information, or \x27None\x27 if not found (unless it\x27s \x27yes\x27/\x27no\x27 for confirmation)."

/-- `extract_info_with_llm` of `backend/booking_graph.py`. Returns `none`
for an empty user message, an unknown field, an LLM exception, or a
(non-confirmation) extraction equal to "none"; for `"confirmation"` it
normalises anything other than yes/no to "no". -/
def extract_info_with_llm (o : Oracle) (field_name user_message : String)
    (context : Option String) : Option String :=
  if user_message == "" then none
  else
    match fieldInstruction field_name (effContext context) with
    | none => none
    | some instruction =>
      match o.complete (extractionSystemMsg instruction) user_message with
      | none => none
      | some raw =>
        let extracted := pyStrip raw
        if field_name == "confirmation" then
          if pyLower extracted == "yes" || pyLower extracted == "no" then
            some (pyLower extracted)
          else some "no"
        else
          if pyLower extracted != "none" then some extracted else none

/-- The `context_info` dictionary passed to `generate_question_with_llm`
(a key is absent exactly when the field is `none`). -/
structure QContext where
  service_type : Option String
  date : Option String
  time : Option String
  issue_type : Option String
  description : Option String
deriving DecidableEq, Repr

/-- The empty `context_info` dictionary. -/
def QContext.empty : QContext := ⟨none, none, none, none, none⟩

/-- The `question_prompt_instruction` computed by
`generate_question_with_llm`; `none` for an unknown target field. -/
def questionInstruction (target_field : String) (ctx : QContext) : Option String :=
  if target_field == "service_type" then
    some "The user wants to book an appointment. Ask them what type of service they are interested in (e.g., translation, interpretation)."
  else if target_field == "date" then
    some ("The user wants to book an appointment for \x27" ++ ctx.service_type.getD "the service" ++ "\x27. Ask them for the desired date.")
  else if target_field == "time" then
    some ("The user wants to book an appointment for \x27" ++ ctx.service_type.getD "the service" ++ "\x27 on \x27" ++ ctx.date.getD "the chosen date" ++ "\x27. Ask them for the desired time.")
  else if target_field == "details" then
    some "The user has provided the main details for their appointment (service, date, time). Ask them if they have any additional details or specific requests. Mention this is optional and they can say \x27no\x27 or \x27none\x27."
  else if target_field == "issue_type" then
    some "The user wants to create a support ticket. Ask them for the type or category of their issue (e.g., technical problem, billing inquiry, account access)."
  else if target_field == "description" then
    some ("The user wants to create a support ticket regarding \x27" ++ ctx.issue_type.getD "the issue" ++ "\x27. Ask them to describe this issue in more detail.")
  else if target_field == "priority" then
    some ("The user has described an issue (\x27" ++ ctx.issue_type.getD "the issue" ++ "\x27: \x27" ++ (ctx.description.getD "the previously described issue").take 50 ++ "...\x27). Ask them for the priority level for this ticket (e.g., low, medium, high). Mention that \x27medium\x27 is the default if they don\x27t specify.")
  else none

/-- The hardcoded fallback question used by `generate_question_with_llm`
when the LLM call raises. -/
def questionFallback (target_field : String) (ctx : QContext) : String :=
  if target_field == "service_type" then "What type of service are you interested in?"
  else if target_field == "date" then
    "What date would you like for the " ++ ctx.service_type.getD "service" ++ "?"
  else "Could you provide more information?"

/-- The `system_message_base` of `generate_question_with_llm`. -/
def questionSystemBase : String :=
  "You are a helpful assistant. Your goal is to ask a polite and clear question to get specific information from a user for their current request."

/-- `generate_question_with_llm` of `backend/booking_graph.py`. -/
def generate_question_with_llm (o : Oracle) (target_field : String) (ctx : QContext) : String :=
  match questionInstruction target_field ctx with
  | none => "I\x27m not sure what information to ask for next. Can you clarify?"
  | some instruction =>
    match o.complete questionSystemBase instruction with
    | some q => pyStrip q
    | none => questionFallback target_field ctx

/-- System message of the intent classification prompt in
`classify_intent_node`. -/
def classifySystemMsg : String :=
  "You are an intent classification assistant. Based on the user\x27s latest message, classify the intent as one of the following: \x27appointment\x27, \x27ticket\x27, or \x27general\x27. If the user is providing information that seems to be part of an ongoing appointment or ticket collection (e.g. providing a date after being asked), maintain the current intent. Provide only the classification word."

/-- Keyword list of the sticky-intent override check in
`classify_intent_node`. -/
def intentKeywords : List String :=
  ["appointment", "ticket", "book", "schedule", "issue", "problem", "cancel", "stop"]

/-- The `default_appt_flags` dictionary applied to a state. -/
def setDefaultApptFlags (s : BookingGraphState) : BookingGraphState :=
  { s with appointment_slot_service_type_asked := false,
           appointment_slot_date_asked := false,
           appointment_slot_time_asked := false,
           appointment_slot_details_asked := false }

/-- The `default_ticket_flags` dictionary applied to a state. -/
def setDefaultTicketFlags (s : BookingGraphState) : BookingGraphState :=
  { s with ticket_slot_issue_type_asked := false,
           ticket_slot_description_asked := false,
           ticket_slot_priority_asked := false }

/-- Intent determination of `classify_intent_node` (lines 144-149): the raw
LLM label, then substring checks, then the sticky-intent fallback guarded by
the keyword list. -/
def determineIntent (raw_llm_intent : String) (current_intent : Option String)
    (user_input : String) : String :=
  if strContains raw_llm_intent "appointment" then "appointment"
  else if strContains raw_llm_intent "ticket" then "ticket"
  else if (current_intent == some "appointment" || current_intent == some "ticket")
      && user_input != "" then
    if !(intentKeywords.any fun kw => strContains (pyLower user_input) kw) then
      (current_intent.getD "general")
    else "general"
  else "general"

/-- State update performed by `classify_intent_node` (lines 153-169) once
`determined_intent` has been computed: the base update plus the per-intent
struct (re)initialisation / preservation / discarding. -/
def classifyCore (determined_intent : String) (s : BookingGraphState) : BookingGraphState :=
  let base := { s with user_request_type := some determined_intent,
                       current_ai_response := none,
                       confirmation_summary := none,
                       final_tool_response := none }
  if determined_intent == "appointment" then
    if s.user_request_type != some "appointment" || s.appointment_details == none then
      setDefaultApptFlags { base with appointment_details := some freshAppointment,
                                      ticket_details := none }
    else base
  else if determined_intent == "ticket" then
    if s.user_request_type != some "ticket" || s.ticket_details == none then
      setDefaultTicketFlags { base with ticket_details := some freshTicket,
                                        appointment_details := none }
    else base
  else
    let base1 := if s.user_request_type == some "appointment" then
        setDefaultApptFlags { base with appointment_details := none }
      else base
    if s.user_request_type == some "ticket" then
      setDefaultTicketFlags { base1 with ticket_details := none }
    else base1

/-- `classify_intent_node` of `backend/booking_graph.py`. Returns `none`
when the (unguarded) intent classification LLM call raises. -/
def classify_intent_node (o : Oracle) (s : BookingGraphState) : Option BookingGraphState :=
  match lastHuman s.conversation_history with
  | none =>
    some { s with user_request_type := some "general",
                  current_ai_response := some "I\x27m not sure how to respond. Could you try rephrasing?" }
  | some user_input_content =>
    match o.complete classifySystemMsg user_input_content with
    | none => none
    | some raw =>
      some (classifyCore
        (determineIntent (pyLower (pyStrip raw)) s.user_request_type user_input_content) s)

/-- `collect_appointment_details_node` of `backend/booking_graph.py`. -/
def collect_appointment_details_node (o : Oracle) (s : BookingGraphState) : BookingGraphState :=
  match s.appointment_details with
  | none =>
    if s.user_request_type == some "appointment" then
      { s with appointment_details := some freshAppointment,
               appointment_slot_service_type_asked := true,
               appointment_slot_date_asked := false,
               appointment_slot_time_asked := false,
               appointment_slot_details_asked := false,
               current_ai_response := some (generate_question_with_llm o "service_type" QContext.empty) }
    else
      { s with current_ai_response := some "Error processing appointment. Please clarify you want an appointment.",
               user_request_type := some "general" }
  | some cd =>
    let last_user_message := lastHumanContent s.conversation_history
    let ctx : QContext := ⟨some cd.service_type, some cd.date, some cd.time, none, none⟩
    if cd.service_type == "" then
      if !s.appointment_slot_service_type_asked then
        { s with appointment_details := some cd,
                 current_ai_response := some (generate_question_with_llm o "service_type" ctx),
                 appointment_slot_service_type_asked := true }
      else
        let extracted := extract_info_with_llm o "service_type" last_user_message none
        let cd1 := if pyTruthy extracted then { cd with service_type := extracted.getD "" } else cd
        { s with appointment_details := some cd1,
                 appointment_slot_service_type_asked := false,
                 current_ai_response := if pyTruthy extracted then none
                   else some (generate_question_with_llm o "service_type" ctx) }
    else if cd.date == "" then
      if !s.appointment_slot_date_asked then
        let ctx1 := { ctx with service_type := some cd.service_type }
        { s with appointment_details := some cd,
                 current_ai_response := some (generate_question_with_llm o "date" ctx1),
                 appointment_slot_date_asked := true }
      else
        let extracted := extract_info_with_llm o "date" last_user_message (some cd.service_type)
        let cd1 := if pyTruthy extracted then { cd with date := extracted.getD "" } else cd
        let ctx1 := { ctx with service_type := some cd1.service_type }
        { s with appointment_details := some cd1,
                 appointment_slot_date_asked := false,
                 current_ai_response := if pyTruthy extracted then none
                   else some (generate_question_with_llm o "date" ctx1) }
    else if cd.time == "" then
      if !s.appointment_slot_time_asked then
        let ctx1 := { ctx with service_type := some cd.service_type, date := some cd.date }
        { s with appointment_details := some cd,
                 current_ai_response := some (generate_question_with_llm o "time" ctx1),
                 appointment_slot_time_asked := true }
      else
        let extracted := extract_info_with_llm o "time" last_user_message (some cd.service_type)
        let cd1 := if pyTruthy extracted then { cd with time := extracted.getD "" } else cd
        let ctx1 := { ctx with service_type := some cd1.service_type, date := some cd1.date }
        { s with appointment_details := some cd1,
                 appointment_slot_time_asked := false,
                 current_ai_response := if pyTruthy extracted then none
                   else some (generate_question_with_llm o "time" ctx1) }
    else if cd.details == none then
      if !s.appointment_slot_details_asked then
        { s with appointment_details := some cd,
                 current_ai_response := some (generate_question_with_llm o "details" ctx),
                 appointment_slot_details_asked := true }
      else
        let extracted := extract_info_with_llm o "details" last_user_message (some cd.service_type)
        let cd1 := { cd with details := if pyTruthy extracted then some (extracted.getD "") else some "N/A" }
        { s with appointment_details := some cd1,
                 appointment_slot_details_asked := false,
                 current_ai_response := none }
    else if cd.service_type != "" && cd.date != "" && cd.time != "" && cd.details != none then
      { s with appointment_details := some cd, current_ai_response := none }
    else
      { s with appointment_details := some freshAppointment,
               current_ai_response := some (generate_question_with_llm o "service_type" QContext.empty),
               appointment_slot_service_type_asked := true,
               appointment_slot_date_asked := false,
               appointment_slot_time_asked := false,
               appointment_slot_details_asked := false }

/-- `collect_ticket_details_node` of `backend/booking_graph.py`. -/
def collect_ticket_details_node (o : Oracle) (s : BookingGraphState) : BookingGraphState :=
  match s.ticket_details with
  | none =>
    if s.user_request_type == some "ticket" then
      { s with ticket_details := some freshTicket,
               ticket_slot_issue_type_asked := true,
               ticket_slot_description_asked := false,
               ticket_slot_priority_asked := false,
               current_ai_response := some (generate_question_with_llm o "issue_type" QContext.empty) }
    else
      { s with current_ai_response := some "Error processing ticket. Please clarify you need a support ticket.",
               user_request_type := some "general" }
  | some cd =>
    let last_user_message := lastHumanContent s.conversation_history
    let ctx : QContext := ⟨none, none, none, some cd.issue_type, some cd.description⟩
    if cd.issue_type == "" then
      if !s.ticket_slot_issue_type_asked then
        { s with ticket_details := some cd,
                 current_ai_response := some (generate_question_with_llm o "issue_type" ctx),
                 ticket_slot_issue_type_asked := true }
      else
        let extracted := extract_info_with_llm o "issue_type" last_user_message none
        let cd1 := if pyTruthy extracted then { cd with issue_type := extracted.getD "" } else cd
        { s with ticket_details := some cd1,
                 ticket_slot_issue_type_asked := false,
                 current_ai_response := if pyTruthy extracted then none
                   else some (generate_question_with_llm o "issue_type" ctx) }
    else if cd.description == "" then
      if !s.ticket_slot_description_asked then
        let ctx1 := { ctx with issue_type := some cd.issue_type }
        { s with ticket_details := some cd,
                 current_ai_response := some (generate_question_with_llm o "description" ctx1),
                 ticket_slot_description_asked := true }
      else
        let extracted := extract_info_with_llm o "description" last_user_message (some cd.issue_type)
        let cd1 := if pyTruthy extracted then { cd with description := extracted.getD "" } else cd
        let ctx1 := { ctx with issue_type := some cd1.issue_type }
        { s with ticket_details := some cd1,
                 ticket_slot_description_asked := false,
                 current_ai_response := if pyTruthy extracted then none
                   else some (generate_question_with_llm o "description" ctx1) }
    else if cd.priority == some "medium" && !s.ticket_slot_priority_asked
        && cd.issue_type != "" && cd.description != "" then
      let ctx1 := { ctx with issue_type := some cd.issue_type, description := some cd.description }
      { s with ticket_details := some cd,
               current_ai_response := some (generate_question_with_llm o "priority" ctx1),
               ticket_slot_priority_asked := true }
    else if s.ticket_slot_priority_asked then
      let extracted := extract_info_with_llm o "priority" last_user_message (some cd.issue_type)
      let cd1 := if pyTruthy extracted
          && (pyLower (extracted.getD "") == "low" || pyLower (extracted.getD "") == "medium"
              || pyLower (extracted.getD "") == "high") then
          { cd with priority := some (pyLower (extracted.getD "")) }
        else cd
      { s with ticket_details := some cd1,
               ticket_slot_priority_asked := false,
               current_ai_response := none }
    else if cd.issue_type != "" && cd.description != "" && !s.ticket_slot_priority_asked then
      { s with ticket_details := some cd, current_ai_response := none }
    else
      { s with ticket_details := some cd,
               current_ai_response := some (generate_question_with_llm o "issue_type" QContext.empty) }

/-- The deterministic `summary_text` built by `generate_summary_node` for a
complete appointment struct. -/
def appointmentSummaryText (d : AppointmentSchema) : String :=
  let base := "Okay, I have the following appointment details for you:\n- Service: " ++
    d.service_type ++ "\n- Date: " ++ d.date ++ "\n- Time: " ++ d.time
  if pyTruthy d.details
      && !(pyLower (d.details.getD "") == "none" || pyLower (d.details.getD "") == "n/a"
           || pyLower (d.details.getD "") == "") then
    base ++ "\n- Additional Details: " ++ d.details.getD ""
  else base

/-- The deterministic `summary_text` built by `generate_summary_node` for a
complete ticket struct (`details.priority or "medium"`). -/
def ticketSummaryText (d : TicketSchema) : String :=
  "Here\x27s a summary of your support ticket request:\n- Issue Type: " ++ d.issue_type ++
    "\n- Description: " ++ d.description ++ "\n- Priority: " ++
    (if pyTruthy d.priority then d.priority.getD "" else "medium")

/-- System message of the summary-rephrasing prompt in
`generate_summary_node`. -/
def summarySystemMsg : String :=
  "You are a helpful assistant. Rephrase the following summary into a natural confirmation question for the user. Ask them to confirm if the details are correct and if they want to proceed. End with a clear question asking for \x27yes\x27 or \x27no\x27 (or similar confirmation)."

/-- `generate_summary_node` of `backend/booking_graph.py`. -/
def generate_summary_node (o : Oracle) (s : BookingGraphState) : BookingGraphState :=
  if s.user_request_type == some "appointment" then
    match s.appointment_details with
    | some d =>
      if d.service_type != "" && d.date != "" && d.time != "" && d.details != none then
        let summary_text := appointmentSummaryText d
        let confirmation_question :=
          match o.complete summarySystemMsg ("Here is the summary:\n" ++ summary_text) with
          | some q => q
          | none => summary_text ++ "\n\nIs this information correct and would you like to proceed? (Please reply with \x27yes\x27 or \x27no\x27)"
        { s with confirmation_summary := some summary_text,
                 current_ai_response := some confirmation_question }
      else
        { s with current_ai_response := some "It seems some appointment details are missing. Let\x27s try collecting them again.",
                 user_request_type := some "appointment" }
    | none =>
      { s with current_ai_response := some "It seems some appointment details are missing. Let\x27s try collecting them again.",
               user_request_type := some "appointment" }
  else if s.user_request_type == some "ticket" then
    match s.ticket_details with
    | some d =>
      if d.issue_type != "" && d.description != "" && d.priority != none then
        let summary_text := ticketSummaryText d
        let confirmation_question :=
          match o.complete summarySystemMsg ("Here is the summary:\n" ++ summary_text) with
          | some q => q
          | none => summary_text ++ "\n\nIs this information correct and would you like to proceed? (Please reply with \x27yes\x27 or \x27no\x27)"
        { s with confirmation_summary := some summary_text,
                 current_ai_response := some confirmation_question }
      else
        { s with current_ai_response := some "It seems some ticket details are missing. Let\x27s try collecting them again.",
                 user_request_type := some "ticket" }
    | none =>
      { s with current_ai_response := some "It seems some ticket details are missing. Let\x27s try collecting them again.",
               user_request_type := some "ticket" }
  else
    { s with current_ai_response := some "I\x27m not sure what I\x27m confirming. Could you please clarify your request?",
             user_request_type := some "general" }

/-- `schedule_appointment_tool_func` of `backend/custom_tools.py` (the pure
stub behaviour of the ScheduleAppointment tool). -/
def schedule_appointment_tool_func (a : AppointmentSchema) : String :=
  "Appointment confirmed for " ++ a.service_type ++ " on " ++ a.date ++ " at " ++ a.time ++
    ". Details: " ++ (if pyTruthy a.details then a.details.getD "" else "N/A") ++ "."

/-- `create_ticket_tool_func` of `backend/custom_tools.py` (the pure stub
behaviour of the CreateSupportTicket tool). -/
def create_ticket_tool_func (t : TicketSchema) : String :=
  "Ticket TICKET-12345 created for issue: " ++ t.issue_type ++ " with priority " ++
    pyShowOpt t.priority ++ ". Description: " ++ t.description ++ ". You will be contacted shortly."

/-- The downstream call issued by `execute_tool_node`: either
`schedule_appointment_tool.invoke(appointment_details.model_dump())` or
`create_ticket_tool.invoke(ticket_details.model_dump())`. -/
inductive ToolCall where
  | schedule (a : AppointmentSchema)
  | openTicket (t : TicketSchema)
deriving DecidableEq, Repr

/-- Which tool call (if any) `execute_tool_node` issues, and with which
payload, read off lines 361-365 of `backend/booking_graph.py`: the payload
is exactly the dumped slot struct. -/
def tool_call_of (s : BookingGraphState) : Option ToolCall :=
  if s.user_request_type == some "appointment" then
    match s.appointment_details with
    | some a => some (ToolCall.schedule a)
    | none => none
  else if s.user_request_type == some "ticket" then
    match s.ticket_details with
    | some t => some (ToolCall.openTicket t)
    | none => none
  else none

/-- The apology produced by the `except` branch of `execute_tool_node`. -/
def toolApology (request_type : Option String) : String :=
  "Sorry, there was an error processing your " ++ pyShowOpt request_type ++
    " request. Please try again later."

/-- `execute_tool_node` of `backend/booking_graph.py`. Note that the final
return resets the whole dialogue state unconditionally, on the success path
and on the exception (apology) path alike. -/
def execute_tool_node (o : Oracle) (s : BookingGraphState) : BookingGraphState :=
  let tool_output :=
    match tool_call_of s with
    | some (ToolCall.schedule a) =>
      match o.invokeSchedule a with
      | some out => out
      | none => toolApology s.user_request_type
    | some (ToolCall.openTicket t) =>
      match o.invokeTicket t with
      | some out => out
      | none => toolApology s.user_request_type
    | none => "No valid details found to execute a tool."
  { s with final_tool_response := some tool_output,
           current_ai_response := some tool_output,
           user_request_type := some "general",
           appointment_details := none,
           ticket_details := none,
           confirmation_summary := none,
           appointment_slot_service_type_asked := false,
           appointment_slot_date_asked := false,
           appointment_slot_time_asked := false,
           appointment_slot_details_asked := false,
           ticket_slot_issue_type_asked := false,
           ticket_slot_description_asked := false,
           ticket_slot_priority_asked := false }

/-- `general_chat_node` of `backend/booking_graph.py` (RAG answer, falling
back to the plain chat model, falling back to a static apology). -/
def general_chat_node (o : Oracle) (s : BookingGraphState) : BookingGraphState :=
  let history := s.conversation_history
  let user_input := (lastHuman history).getD "Hello"
  let default_response := "I\x27m sorry, I couldn\x27t find information on that. How else can I assist you?"
  let chat_or_default := match o.chat history with
    | some c => c
    | none => default_response
  let response_content :=
    if o.ragAvailable then
      match o.rag user_input history.dropLast with
      | some r => r
      | none => chat_or_default
    else chat_or_default
  { s with current_ai_response := some response_content }

/-- Nodes of the compiled LangGraph workflow. -/
inductive Node where
  | classify_intent
  | collect_appointment_details
  | collect_ticket_details
  | generate_summary
  | execute_tool
  | general_chat
deriving DecidableEq, Repr

/-- `route_after_intent_classification` of `backend/booking_graph.py`. -/
def route_after_intent_classification (s : BookingGraphState) : Node :=
  if s.user_request_type == some "appointment" then Node.collect_appointment_details
  else if s.user_request_type == some "ticket" then Node.collect_ticket_details
  else Node.general_chat

/-- `route_after_detail_collection` of `backend/booking_graph.py`. When
`current_ai_response` is non-null (a question was just produced), it routes
back into the very collection node that produced it. -/
def route_after_detail_collection (s : BookingGraphState) : Node :=
  if s.current_ai_response == none then
    if s.user_request_type == some "appointment" then
      match s.appointment_details with
      | some appt =>
        if !(appt.service_type != "" && appt.date != "" && appt.time != "" && appt.details != none) then
          Node.collect_appointment_details
        else Node.generate_summary
      | none => Node.collect_appointment_details
    else if s.user_request_type == some "ticket" then
      match s.ticket_details with
      | some ticket =>
        if !(ticket.issue_type != "" && ticket.description != "" && ticket.priority != none) then
          Node.collect_ticket_details
        else Node.generate_summary
      | none => Node.collect_ticket_details
    else Node.generate_summary
  else
    if s.user_request_type == some "appointment" then Node.collect_appointment_details
    else if s.user_request_type == some "ticket" then Node.collect_ticket_details
    else Node.classify_intent

/-- `route_after_summary_prompt` of `backend/booking_graph.py`. The routing
function mutates the state it receives (clearing `confirmation_summary` and
the ask flags of the active struct on a non-affirmative reply), so the model
returns the mutated state together with the chosen node. -/
def route_after_summary_prompt (o : Oracle) (s : BookingGraphState) : BookingGraphState × Node :=
  let last_message_content := lastHumanContent s.conversation_history
  let confirmation := extract_info_with_llm o "confirmation" last_message_content s.confirmation_summary
  if confirmation == some "yes" then (s, Node.execute_tool)
  else
    let s1 := { s with confirmation_summary := none }
    if s1.user_request_type == some "appointment" then
      ({ s1 with appointment_slot_service_type_asked := false,
                 appointment_slot_date_asked := false,
                 appointment_slot_time_asked := false,
                 appointment_slot_details_asked := false },
       Node.collect_appointment_details)
    else if s1.user_request_type == some "ticket" then
      ({ s1 with ticket_slot_issue_type_asked := false,
                 ticket_slot_description_asked := false,
                 ticket_slot_priority_asked := false },
       Node.collect_ticket_details)
    else
      ({ s1 with current_ai_response := some "Okay, I\x27ve cancelled that. How can I help you now?" },
       Node.general_chat)

/-- One step of the compiled workflow: run the node, then follow its
conditional or fixed edge. `none` models an unhandled exception inside
`classify_intent_node`. The graph, as compiled at lines 452-458 of
`backend/booking_graph.py`, has no edge to END. -/
def step (o : Oracle) : Node × BookingGraphState → Option (Node × BookingGraphState)
  | (Node.classify_intent, s) =>
    match classify_intent_node o s with
    | none => none
    | some s1 => some (route_after_intent_classification s1, s1)
  | (Node.collect_appointment_details, s) =>
    let s1 := collect_appointment_details_node o s
    some (route_after_detail_collection s1, s1)
  | (Node.collect_ticket_details, s) =>
    let s1 := collect_ticket_details_node o s
    some (route_after_detail_collection s1, s1)
  | (Node.generate_summary, s) =>
    let s1 := generate_summary_node o s
    let p := route_after_summary_prompt o s1
    some (p.2, p.1)
  | (Node.execute_tool, s) => some (Node.general_chat, execute_tool_node o s)
  | (Node.general_chat, s) => some (Node.classify_intent, general_chat_node o s)

/-- Invariant A of the spec data model: the two slot structs are never both
non-null. -/
def InvariantA (s : BookingGraphState) : Prop :=
  ¬(s.appointment_details ≠ none ∧ s.ticket_details ≠ none)

/-- Strengthening of Invariant A that makes it inductive: while an intake is
active, the slot struct of the other intake is null. -/
def IntentStructCoherence (s : BookingGraphState) : Prop :=
  (s.user_request_type = some "appointment" → s.ticket_details = none) ∧
  (s.user_request_type = some "ticket" → s.appointment_details = none)

/-- The combined state invariant carried through every orchestration step. -/
def StateInv (s : BookingGraphState) : Prop := InvariantA s ∧ IntentStructCoherence s

/-- Ticket priority is one of the three admissible labels whenever a ticket
struct is present. -/
def priorityOK (s : BookingGraphState) : Prop :=
  ∀ t, s.ticket_details = some t →
    t.priority = some "low" ∨ t.priority = some "medium" ∨ t.priority = some "high"

/-- Result of the downstream call issued by `execute_tool_node` for a given
tool call. -/
def toolResult (o : Oracle) : ToolCall → Option String
  | ToolCall.schedule a => o.invokeSchedule a
  | ToolCall.openTicket t => o.invokeTicket t

/-- A dispatch is attempted and the downstream operation succeeds. -/
def dispatchSucceeds (o : Oracle) (s : BookingGraphState) : Prop :=
  ∃ c, tool_call_of s = some c ∧ toolResult o c ≠ none

/-- Deterministic test gateway: extraction attempts against the user message
"book" fail (the model answers "None"), every other prompt (question
generation) yields the fixed text "QQ"; both tools succeed with their stub
output. -/
def oracleQ : Oracle :=
  ⟨fun _ hum => if hum == "book" then some "None" else some "QQ",
   false, fun _ _ => none, fun _ => none,
   fun a => some (schedule_appointment_tool_func a),
   fun t => some (create_ticket_tool_func t)⟩

/-- Concrete state at the start of an appointment collection: the user just
said "book", the intent has been classified as appointment and a fresh
appointment struct was initialised; no question asked yet. -/
def askState : BookingGraphState :=
  ⟨[Message.human "book"], some "appointment", some freshAppointment,
   false, false, false, false, none, false, false, false, none, none, 1, none⟩

/-- The state right after the collector asked the service-type question:
the question is pending in `current_ai_response` and the ask flag is set. -/
def askedState : BookingGraphState :=
  { askState with appointment_slot_service_type_asked := true,
                  current_ai_response := some "QQ" }

/-- The confirmation classification instruction of the `field_prompts`
table (it contains no context placeholder). -/
def confirmationInstruction : String :=
  "The user is being asked to confirm details previously summarized. Does the user\x27s message mean \x27yes\x27, \x27confirm\x27, \x27ok\x27, \x27proceed\x27, \x27correct\x27, \x27yep\x27, \x27yeah\x27, \x27sounds good\x27, \x27y\x27? Respond only with \x27yes\x27 or \x27no\x27."

/-- A gateway identical to `oracleQ` except that the CreateSupportTicket
tool invocation raises (a ToolDispatchFailure). -/
def oracleFailTicket : Oracle := { oracleQ with invokeTicket := fun _ => none }

/-- A gateway whose every completion answers "maybe" (in particular the
confirmation classification is unparseable). -/
def oracleMaybe : Oracle := { oracleQ with complete := fun _ _ => some "maybe" }

/-- A fully collected ticket struct. -/
def ticketT0 : TicketSchema := ⟨"technical problem", "cannot access my account", some "high"⟩

/-- Concrete state at the confirmation stage of a ticket intake: all ticket
fields collected, a confirmation summary pending, fifth turn. -/
def confirmState : BookingGraphState :=
  ⟨[Message.human "yes"], some "ticket", none, false, false, false, false,
   some ticketT0, false, false, false, some "summary", none, 5, none⟩

/-- The same confirmation-stage state on a different turn (turn counter 6
instead of 5). -/
def confirmState6 : BookingGraphState := { confirmState with interaction_count := 6 }

lemma fieldInstruction_confirmation (c : String) :
    fieldInstruction "confirmation" c = some confirmationInstruction := rfl

lemma confirmation_extract_not_yes (o : Oracle) (msg : String) (ctx : Option String)
    (h : ∀ out, o.complete (extractionSystemMsg confirmationInstruction) msg = some out →
      pyLower (pyStrip out) ≠ "yes") :
    extract_info_with_llm o "confirmation" msg ctx = some "no" ∨
    extract_info_with_llm o "confirmation" msg ctx = none := by
  unfold extract_info_with_llm
  by_cases hm : msg == ""
  · simp [hm]
  · rw [fieldInstruction_confirmation]
    simp only [hm]
    cases hc : o.complete (extractionSystemMsg confirmationInstruction) msg with
    | none => simp
    | some raw =>
      have hne := h raw hc
      by_cases hno : pyLower (pyStrip raw) == "no"
      · simp only [Bool.if_false_left, Bool.if_true_left, hno]
        left
        simp_all
      · have hyes : (pyLower (pyStrip raw) == "yes") = false := by
          simp [hne]
        simp [hyes, hno]

lemma stateInv_classifyCore (d : String) (s : BookingGraphState) (hinv : StateInv s) :
    StateInv (classifyCore d s) := by
  simp only [classifyCore]
  repeat' split
  all_goals
    simp_all [StateInv, InvariantA, IntentStructCoherence, setDefaultApptFlags,
      setDefaultTicketFlags]

lemma stateInv_classify (o : Oracle) (s s' : BookingGraphState)
    (hstep : classify_intent_node o s = some s') (hinv : StateInv s) : StateInv s' := by
  unfold classify_intent_node at hstep
  split at hstep
  · simp only [Option.some.injEq] at hstep
    subst hstep
    simp_all [StateInv, InvariantA, IntentStructCoherence]
  · split at hstep
    · exact Option.noConfusion hstep
    · simp only [Option.some.injEq] at hstep
      subst hstep
      exact stateInv_classifyCore _ _ hinv

lemma stateInv_collect_a (o : Oracle) (s : BookingGraphState) (hinv : StateInv s) :
    StateInv (collect_appointment_details_node o s) := by
  simp only [collect_appointment_details_node]
  repeat' split
  all_goals
    simp_all [StateInv, InvariantA, IntentStructCoherence]

lemma stateInv_collect_t (o : Oracle) (s : BookingGraphState) (hinv : StateInv s) :
    StateInv (collect_ticket_details_node o s) := by
  simp only [collect_ticket_details_node]
  repeat' split
  all_goals
    simp_all [StateInv, InvariantA, IntentStructCoherence]

lemma stateInv_summary (o : Oracle) (s : BookingGraphState) (hinv : StateInv s) :
    StateInv (generate_summary_node o s) := by
  simp only [generate_summary_node]
  repeat' split
  all_goals
    simp_all [StateInv, InvariantA, IntentStructCoherence]

lemma stateInv_exec (o : Oracle) (s : BookingGraphState) :
    StateInv (execute_tool_node o s) := by
  simp [StateInv, InvariantA, IntentStructCoherence, execute_tool_node]

lemma stateInv_general (o : Oracle) (s : BookingGraphState) (hinv : StateInv s) :
    StateInv (general_chat_node o s) := by
  simp_all [StateInv, InvariantA, IntentStructCoherence, general_chat_node]

lemma stateInv_route_summary (o : Oracle) (s : BookingGraphState) (hinv : StateInv s) :
    StateInv (route_after_summary_prompt o s).1 := by
  simp only [route_after_summary_prompt]
  repeat' split
  all_goals
    simp_all [StateInv, InvariantA, IntentStructCoherence]

lemma classifyCore_discard (d : String) (s : BookingGraphState)
    (hne : (classifyCore d s).user_request_type ≠ s.user_request_type) :
    (s.user_request_type = some "appointment" → (classifyCore d s).appointment_details = none) ∧
    (s.user_request_type = some "ticket" → (classifyCore d s).ticket_details = none) := by
  simp only [classifyCore] at hne ⊢
  repeat' split
  all_goals simp_all [setDefaultApptFlags, setDefaultTicketFlags]
  all_goals exact fun h => hne h.symm

lemma collect_ticket_priority_cases (o : Oracle) (s : BookingGraphState) (cd : TicketSchema)
    (hs : s.ticket_details = some cd) (t' : TicketSchema)
    (ht' : (collect_ticket_details_node o s).ticket_details = some t') :
    t'.priority = cd.priority ∨
    (pyTruthy (extract_info_with_llm o "priority"
        (lastHumanContent s.conversation_history) (some cd.issue_type)) = true ∧
     (pyLower ((extract_info_with_llm o "priority"
          (lastHumanContent s.conversation_history) (some cd.issue_type)).getD "") = "low" ∨
      pyLower ((extract_info_with_llm o "priority"
          (lastHumanContent s.conversation_history) (some cd.issue_type)).getD "") = "medium" ∨
      pyLower ((extract_info_with_llm o "priority"
          (lastHumanContent s.conversation_history) (some cd.issue_type)).getD "") = "high") ∧
     t'.priority = some (pyLower ((extract_info_with_llm o "priority"
        (lastHumanContent s.conversation_history) (some cd.issue_type)).getD ""))) := by
  simp only [collect_ticket_details_node, hs] at ht'
  repeat' split at ht'
  all_goals simp_all
  all_goals (rw [← ht']; clear ht')
  all_goals simp_all
  all_goals tauto

lemma ticket_unchanged_collect_a (o : Oracle) (s : BookingGraphState) :
    (collect_appointment_details_node o s).ticket_details = s.ticket_details := by
  simp only [collect_appointment_details_node]
  repeat' split
  all_goals rfl

lemma ticket_unchanged_summary (o : Oracle) (s : BookingGraphState) :
    (generate_summary_node o s).ticket_details = s.ticket_details := by
  simp only [generate_summary_node]
  repeat' split
  all_goals rfl

lemma ticket_unchanged_general (o : Oracle) (s : BookingGraphState) :
    (general_chat_node o s).ticket_details = s.ticket_details := rfl

lemma ticket_unchanged_route_summary (o : Oracle) (s : BookingGraphState) :
    (route_after_summary_prompt o s).1.ticket_details = s.ticket_details := by
  simp only [route_after_summary_prompt]
  repeat' split
  all_goals rfl

lemma priorityOK_classifyCore (d : String) (s : BookingGraphState) (h : priorityOK s) :
    priorityOK (classifyCore d s) := by
  intro t ht
  simp only [classifyCore, setDefaultApptFlags, setDefaultTicketFlags] at ht
  repeat' split at ht
  all_goals first
    | exact Option.noConfusion ht
    | exact h t ht
    | (simp only [Option.some.injEq] at ht; rw [← ht]; simp [freshTicket])

lemma priorityOK_classify (o : Oracle) (s s' : BookingGraphState)
    (hstep : classify_intent_node o s = some s') (h : priorityOK s) : priorityOK s' := by
  unfold classify_intent_node at hstep
  split at hstep
  · simp only [Option.some.injEq] at hstep
    subst hstep
    simp_all [priorityOK]
  · split at hstep
    · exact Option.noConfusion hstep
    · simp only [Option.some.injEq] at hstep
      subst hstep
      exact priorityOK_classifyCore _ _ h

lemma priorityOK_collect_t (o : Oracle) (s : BookingGraphState) (h : priorityOK s) :
    priorityOK (collect_ticket_details_node o s) := by
  intro t' ht'
  cases hs : s.ticket_details with
  | none =>
    revert ht'
    simp only [collect_ticket_details_node, hs]
    split
    · simp [freshTicket]
      intro ht'
      simp [← ht']
    · simp [hs]
  | some cd =>
    rcases collect_ticket_priority_cases o s cd hs t' ht' with hp | ⟨-, hmem, hp⟩
    · rw [hp]; exact h cd hs
    · rw [hp]
      rcases hmem with hm | hm | hm <;> rw [hm] <;> simp

lemma priorityOK_collect_a (o : Oracle) (s : BookingGraphState) (h : priorityOK s) :
    priorityOK (collect_appointment_details_node o s) := by
  intro t ht
  rw [ticket_unchanged_collect_a] at ht
  exact h t ht

lemma priorityOK_exec (o : Oracle) (s : BookingGraphState) :
    priorityOK (execute_tool_node o s) := by
  intro t ht
  simp [execute_tool_node] at ht

/-- Claim C1 (code_bug evidence). The spec requires that once a
slot-collection step produces an outgoing question the turn MUST end; in the
code, when `collect_appointment_details_node` produces the service-type
question (`current_ai_response` non-null), `route_after_detail_collection`
routes straight back into the same collection node, re-invoking it within
the same turn against the same unconsumed user text (and the compiled graph
has no edge to END at all). -/
theorem claim_C1_question_reentry :
    (collect_appointment_details_node oracleQ askState).current_ai_response = some "QQ" ∧
    step oracleQ (Node.collect_appointment_details, askState) =
      some (Node.collect_appointment_details, askedState) ∧
    askedState.current_ai_response ≠ none := by decide

/-- Claim C2 counterexample. With a failing CreateSupportTicket tool, the
turn does return the apology, but `execute_tool_node` nevertheless clears
`ticket_details` and `confirmation_summary` (the state was non-null before),
contradicting the claim that they are left unchanged for a retry. -/
theorem claim_C2_counterexample :
    (execute_tool_node oracleFailTicket confirmState).current_ai_response =
      some "Sorry, there was an error processing your ticket request. Please try again later." ∧
    confirmState.ticket_details = some ticketT0 ∧
    confirmState.confirmation_summary = some "summary" ∧
    (execute_tool_node oracleFailTicket confirmState).ticket_details = none ∧
    (execute_tool_node oracleFailTicket confirmState).confirmation_summary = none := by decide

/-- Claim C2 (amended). For every dispatch in which the downstream tool
operation fails, the turn returns an apology, but the slot structs, the
confirmation summary and all ask flags are reset exactly as on success, so a
subsequent affirmative reply cannot retry the dispatch without full
re-collection. -/
theorem claim_C2_failure_resets_state :
    (∀ (o : Oracle) (s : BookingGraphState) (t : TicketSchema),
      s.user_request_type = some "ticket" → s.ticket_details = some t →
      o.invokeTicket t = none →
      (execute_tool_node o s).current_ai_response = some (toolApology (some "ticket")) ∧
      (execute_tool_node o s).ticket_details = none ∧
      (execute_tool_node o s).appointment_details = none ∧
      (execute_tool_node o s).confirmation_summary = none ∧
      (execute_tool_node o s).ticket_slot_issue_type_asked = false ∧
      (execute_tool_node o s).ticket_slot_description_asked = false ∧
      (execute_tool_node o s).ticket_slot_priority_asked = false) ∧
    (∀ (o : Oracle) (s : BookingGraphState) (a : AppointmentSchema),
      s.user_request_type = some "appointment" → s.appointment_details = some a →
      o.invokeSchedule a = none →
      (execute_tool_node o s).current_ai_response = some (toolApology (some "appointment")) ∧
      (execute_tool_node o s).appointment_details = none ∧
      (execute_tool_node o s).ticket_details = none ∧
      (execute_tool_node o s).confirmation_summary = none ∧
      (execute_tool_node o s).appointment_slot_service_type_asked = false ∧
      (execute_tool_node o s).appointment_slot_date_asked = false ∧
      (execute_tool_node o s).appointment_slot_time_asked = false ∧
      (execute_tool_node o s).appointment_slot_details_asked = false) := by
  constructor
  · intro o s t h1 h2 h3
    simp [execute_tool_node, tool_call_of, h1, h2, h3, toolResult]
  · intro o s a h1 h2 h3
    simp [execute_tool_node, tool_call_of, h1, h2, h3, toolResult]

/-- Claim C2 witness: the amended theorem evaluated at the concrete failing
ticket dispatch. -/
theorem claim_C2_witness :
    (execute_tool_node oracleFailTicket confirmState).current_ai_response =
      some (toolApology (some "ticket")) ∧
    (execute_tool_node oracleFailTicket confirmState).ticket_details = none ∧
    (execute_tool_node oracleFailTicket confirmState).appointment_details = none ∧
    (execute_tool_node oracleFailTicket confirmState).confirmation_summary = none ∧
    (execute_tool_node oracleFailTicket confirmState).ticket_slot_issue_type_asked = false ∧
    (execute_tool_node oracleFailTicket confirmState).ticket_slot_description_asked = false ∧
    (execute_tool_node oracleFailTicket confirmState).ticket_slot_priority_asked = false :=
  claim_C2_failure_resets_state.1 oracleFailTicket confirmState ticketT0 rfl rfl rfl

/-- Claim C3 (code_bug evidence). There is no iteration cap on the same-turn
re-entrant loop: with a gateway whose service-type extraction always fails,
the ask / extract pair of steps of the compiled graph returns to exactly the
same node and state, so the turn never terminates by itself (the appointment
schema has four fields, yet the cycle repeats unboundedly). -/
theorem claim_C3_collector_loop :
    ((step oracleQ (Node.collect_appointment_details, askedState)).bind (step oracleQ)) =
      some (Node.collect_appointment_details, askedState) := by decide

/-- Claim C4 (confirmed, strengthened to be inductive). Every graph step
preserves `StateInv`, whose first component is Invariant A: the appointment
and ticket slot structs are never both non-null; and whenever
`classify_intent_node` switches `current_intent` (on a turn that has a user
message), the struct of the abandoned intent is discarded. -/
theorem claim_C4_invariant_A :
    (∀ (o : Oracle) (n : Node) (s : BookingGraphState) (n' : Node) (s' : BookingGraphState),
      step o (n, s) = some (n', s') → StateInv s → StateInv s') ∧
    (∀ (o : Oracle) (s s' : BookingGraphState),
      lastHuman s.conversation_history ≠ none →
      classify_intent_node o s = some s' →
      s'.user_request_type ≠ s.user_request_type →
      (s.user_request_type = some "appointment" → s'.appointment_details = none) ∧
      (s.user_request_type = some "ticket" → s'.ticket_details = none)) := by
  constructor
  · intro o n s n' s' hstep hinv
    cases n <;> simp only [step] at hstep
    · cases hc : classify_intent_node o s with
      | none => rw [hc] at hstep; exact Option.noConfusion hstep
      | some s1 =>
        rw [hc] at hstep
        simp only [Option.some.injEq, Prod.mk.injEq] at hstep
        obtain ⟨-, h2⟩ := hstep
        subst h2
        exact stateInv_classify o s s1 hc hinv
    · simp only [Option.some.injEq, Prod.mk.injEq] at hstep
      obtain ⟨-, h2⟩ := hstep
      subst h2
      exact stateInv_collect_a o s hinv
    · simp only [Option.some.injEq, Prod.mk.injEq] at hstep
      obtain ⟨-, h2⟩ := hstep
      subst h2
      exact stateInv_collect_t o s hinv
    · simp only [Option.some.injEq, Prod.mk.injEq] at hstep
      obtain ⟨-, h2⟩ := hstep
      subst h2
      exact stateInv_route_summary o _ (stateInv_summary o s hinv)
    · simp only [Option.some.injEq, Prod.mk.injEq] at hstep
      obtain ⟨-, h2⟩ := hstep
      subst h2
      exact stateInv_exec o s
    · simp only [Option.some.injEq, Prod.mk.injEq] at hstep
      obtain ⟨-, h2⟩ := hstep
      subst h2
      exact stateInv_general o s hinv
  · intro o s s' hlh hstep hne
    unfold classify_intent_node at hstep
    split at hstep
    · simp_all
    · split at hstep
      · exact Option.noConfusion hstep
      · simp only [Option.some.injEq] at hstep
        subst hstep
        exact classifyCore_discard _ s hne

/-- Claim C4 witness: the invariant preservation applied to a concrete
general-chat step. -/
theorem claim_C4_witness : StateInv (general_chat_node oracleQ askState) :=
  claim_C4_invariant_A.1 oracleQ Node.general_chat askState Node.classify_intent
    (general_chat_node oracleQ askState) rfl
    (by unfold StateInv InvariantA IntentStructCoherence; decide)

/-- Claim C5 (confirmed). Confirmation interpretation is fail-closed: if the
gateway output for the confirmation classification (after strip and lower)
is anything other than "yes" — including an exception, modelled by the
hypothesis quantifying over all actual outputs — then the extracted
confirmation is "no" (or `none` on an empty message / exception) and
`route_after_summary_prompt` does not route to the Tool Dispatcher. -/
theorem claim_C5_fail_closed_confirmation (o : Oracle) (s : BookingGraphState)
    (h : ∀ out, o.complete (extractionSystemMsg confirmationInstruction)
        (lastHumanContent s.conversation_history) = some out →
      pyLower (pyStrip out) ≠ "yes") :
    (extract_info_with_llm o "confirmation" (lastHumanContent s.conversation_history)
        s.confirmation_summary = some "no" ∨
     extract_info_with_llm o "confirmation" (lastHumanContent s.conversation_history)
        s.confirmation_summary = none) ∧
    (route_after_summary_prompt o s).2 ≠ Node.execute_tool := by
  have hconf := confirmation_extract_not_yes o (lastHumanContent s.conversation_history)
    s.confirmation_summary h
  refine ⟨hconf, ?_⟩
  have hne : (extract_info_with_llm o "confirmation" (lastHumanContent s.conversation_history)
      s.confirmation_summary == some "yes") = false := by
    rcases hconf with hc | hc <;> simp [hc]
  unfold route_after_summary_prompt
  simp only [hne]
  simp only [Bool.false_eq_true, if_false]
  split
  · simp
  · split <;> simp

/-- Claim C5 witness: a gateway answering "maybe" to the confirmation
prompt is treated as "no" and the dispatcher is not invoked. -/
theorem claim_C5_witness :
    (extract_info_with_llm oracleMaybe "confirmation"
        (lastHumanContent confirmState.conversation_history)
        confirmState.confirmation_summary = some "no" ∨
     extract_info_with_llm oracleMaybe "confirmation"
        (lastHumanContent confirmState.conversation_history)
        confirmState.confirmation_summary = none) ∧
    (route_after_summary_prompt oracleMaybe confirmState).2 ≠ Node.execute_tool :=
  claim_C5_fail_closed_confirmation oracleMaybe confirmState (by
    intro out hout
    simp [oracleMaybe, oracleQ] at hout
    subst hout
    decide)

/-- Claim C6 counterexample. With the service-type question pending
(`asked = true`) and a failing extraction, the collector does re-emit the
question, but it sets the asked flag to `false`, not `true` as the claim
states. -/
theorem claim_C6_counterexample :
    askedState.appointment_slot_service_type_asked = true ∧
    pyTruthy (extract_info_with_llm oracleQ "service_type"
      (lastHumanContent askedState.conversation_history) none) = false ∧
    (collect_appointment_details_node oracleQ askedState).current_ai_response =
      some "QQ" ∧
    (collect_appointment_details_node oracleQ askedState).appointment_slot_service_type_asked
      = false := by decide

/-- Claim C6 (amended). For every required field (service_type, date, time,
issue_type, description) whose asked flag is true, when extraction of that
field from the user text fails, the Slot Collector re-emits the question for
that field, leaves the struct unchanged, and resets the asked flag to false
(the optional fields details and priority are instead resolved to their
defaults without re-asking). -/
theorem claim_C6_reask_clears_flag :
    (∀ (o : Oracle) (s : BookingGraphState) (cd : AppointmentSchema),
      s.appointment_details = some cd → cd.service_type = "" →
      s.appointment_slot_service_type_asked = true →
      pyTruthy (extract_info_with_llm o "service_type"
        (lastHumanContent s.conversation_history) none) = false →
      (collect_appointment_details_node o s).current_ai_response =
        some (generate_question_with_llm o "service_type"
          ⟨some cd.service_type, some cd.date, some cd.time, none, none⟩) ∧
      (collect_appointment_details_node o s).appointment_slot_service_type_asked = false ∧
      (collect_appointment_details_node o s).appointment_details = some cd) ∧
    (∀ (o : Oracle) (s : BookingGraphState) (cd : AppointmentSchema),
      s.appointment_details = some cd → cd.service_type ≠ "" → cd.date = "" →
      s.appointment_slot_date_asked = true →
      pyTruthy (extract_info_with_llm o "date"
        (lastHumanContent s.conversation_history) (some cd.service_type)) = false →
      (collect_appointment_details_node o s).current_ai_response =
        some (generate_question_with_llm o "date"
          ⟨some cd.service_type, some cd.date, some cd.time, none, none⟩) ∧
      (collect_appointment_details_node o s).appointment_slot_date_asked = false ∧
      (collect_appointment_details_node o s).appointment_details = some cd) ∧
    (∀ (o : Oracle) (s : BookingGraphState) (cd : AppointmentSchema),
      s.appointment_details = some cd → cd.service_type ≠ "" → cd.date ≠ "" → cd.time = "" →
      s.appointment_slot_time_asked = true →
      pyTruthy (extract_info_with_llm o "time"
        (lastHumanContent s.conversation_history) (some cd.service_type)) = false →
      (collect_appointment_details_node o s).current_ai_response =
        some (generate_question_with_llm o "time"
          ⟨some cd.service_type, some cd.date, some cd.time, none, none⟩) ∧
      (collect_appointment_details_node o s).appointment_slot_time_asked = false ∧
      (collect_appointment_details_node o s).appointment_details = some cd) ∧
    (∀ (o : Oracle) (s : BookingGraphState) (cd : TicketSchema),
      s.ticket_details = some cd → cd.issue_type = "" →
      s.ticket_slot_issue_type_asked = true →
      pyTruthy (extract_info_with_llm o "issue_type"
        (lastHumanContent s.conversation_history) none) = false →
      (collect_ticket_details_node o s).current_ai_response =
        some (generate_question_with_llm o "issue_type"
          ⟨none, none, none, some cd.issue_type, some cd.description⟩) ∧
      (collect_ticket_details_node o s).ticket_slot_issue_type_asked = false ∧
      (collect_ticket_details_node o s).ticket_details = some cd) ∧
    (∀ (o : Oracle) (s : BookingGraphState) (cd : TicketSchema),
      s.ticket_details = some cd → cd.issue_type ≠ "" → cd.description = "" →
      s.ticket_slot_description_asked = true →
      pyTruthy (extract_info_with_llm o "description"
        (lastHumanContent s.conversation_history) (some cd.issue_type)) = false →
      (collect_ticket_details_node o s).current_ai_response =
        some (generate_question_with_llm o "description"
          ⟨none, none, none, some cd.issue_type, some cd.description⟩) ∧
      (collect_ticket_details_node o s).ticket_slot_description_asked = false ∧
      (collect_ticket_details_node o s).ticket_details = some cd) := by
  refine ⟨?_, ?_, ?_, ?_, ?_⟩
  · intro o s cd h1 h2 h3 h4
    simp [collect_appointment_details_node, h1, h2, h3, h4]
  · intro o s cd h1 h2 h2b h3 h4
    simp [collect_appointment_details_node, h1, h2, h2b, h3, h4]
  · intro o s cd h1 h2 h2b h2c h3 h4
    simp [collect_appointment_details_node, h1, h2, h2b, h2c, h3, h4]
  · intro o s cd h1 h2 h3 h4
    simp [collect_ticket_details_node, h1, h2, h3, h4]
  · intro o s cd h1 h2 h2b h3 h4
    simp [collect_ticket_details_node, h1, h2, h2b, h3, h4]

/-- Claim C6 witness: the amended theorem evaluated at the concrete pending
service-type question with a failing extraction. -/
theorem claim_C6_witness :
    (collect_appointment_details_node oracleQ askedState).current_ai_response =
      some (generate_question_with_llm oracleQ "service_type"
        ⟨some freshAppointment.service_type, some freshAppointment.date,
         some freshAppointment.time, none, none⟩) ∧
    (collect_appointment_details_node oracleQ askedState).appointment_slot_service_type_asked
      = false ∧
    (collect_appointment_details_node oracleQ askedState).appointment_details =
      some freshAppointment :=
  claim_C6_reask_clears_flag.1 oracleQ askedState freshAppointment rfl rfl rfl (by decide)

/-- Claim C7 (confirmed). Immediately after every successful Tool Dispatch,
`execute_tool_node` leaves the dialogue state fully reset: the intent is
back to "general" (the code representation of the spec value "none"), both
slot structs and the confirmation summary are null, and all seven per-field
asked flags are false. -/
theorem claim_C7_reset_after_dispatch (o : Oracle) (s : BookingGraphState)
    (hsucc : dispatchSucceeds o s) :
    (execute_tool_node o s).user_request_type = some "general" ∧
    (execute_tool_node o s).appointment_details = none ∧
    (execute_tool_node o s).ticket_details = none ∧
    (execute_tool_node o s).confirmation_summary = none ∧
    (execute_tool_node o s).appointment_slot_service_type_asked = false ∧
    (execute_tool_node o s).appointment_slot_date_asked = false ∧
    (execute_tool_node o s).appointment_slot_time_asked = false ∧
    (execute_tool_node o s).appointment_slot_details_asked = false ∧
    (execute_tool_node o s).ticket_slot_issue_type_asked = false ∧
    (execute_tool_node o s).ticket_slot_description_asked = false ∧
    (execute_tool_node o s).ticket_slot_priority_asked = false :=
  ⟨rfl, rfl, rfl, rfl, rfl, rfl, rfl, rfl, rfl, rfl, rfl⟩

/-- Claim C7 witness: the reset after the concrete successful ticket
dispatch. -/
theorem claim_C7_witness :
    (execute_tool_node oracleQ confirmState).user_request_type = some "general" ∧
    (execute_tool_node oracleQ confirmState).appointment_details = none ∧
    (execute_tool_node oracleQ confirmState).ticket_details = none ∧
    (execute_tool_node oracleQ confirmState).confirmation_summary = none ∧
    (execute_tool_node oracleQ confirmState).appointment_slot_service_type_asked = false ∧
    (execute_tool_node oracleQ confirmState).appointment_slot_date_asked = false ∧
    (execute_tool_node oracleQ confirmState).appointment_slot_time_asked = false ∧
    (execute_tool_node oracleQ confirmState).appointment_slot_details_asked = false ∧
    (execute_tool_node oracleQ confirmState).ticket_slot_issue_type_asked = false ∧
    (execute_tool_node oracleQ confirmState).ticket_slot_description_asked = false ∧
    (execute_tool_node oracleQ confirmState).ticket_slot_priority_asked = false :=
  claim_C7_reset_after_dispatch oracleQ confirmState
    ⟨ToolCall.openTicket ticketT0, by decide, by decide⟩

/-- Claim C8 (confirmed). On a declined or unclear confirmation reply (the
gateway classification is not affirmative), `route_after_summary_prompt`
returns control to the slot collection node of the active intake, with every
ask flag of the active struct cleared to false, both slot structs (hence all
filled values) unchanged, and `current_intent` unchanged. -/
theorem claim_C8_decline_returns_to_collection (o : Oracle) (s : BookingGraphState)
    (h : ∀ out, o.complete (extractionSystemMsg confirmationInstruction)
        (lastHumanContent s.conversation_history) = some out →
      pyLower (pyStrip out) ≠ "yes") :
    (s.user_request_type = some "appointment" →
      (route_after_summary_prompt o s).2 = Node.collect_appointment_details ∧
      (route_after_summary_prompt o s).1.appointment_slot_service_type_asked = false ∧
      (route_after_summary_prompt o s).1.appointment_slot_date_asked = false ∧
      (route_after_summary_prompt o s).1.appointment_slot_time_asked = false ∧
      (route_after_summary_prompt o s).1.appointment_slot_details_asked = false ∧
      (route_after_summary_prompt o s).1.appointment_details = s.appointment_details ∧
      (route_after_summary_prompt o s).1.ticket_details = s.ticket_details ∧
      (route_after_summary_prompt o s).1.user_request_type = s.user_request_type) ∧
    (s.user_request_type = some "ticket" →
      (route_after_summary_prompt o s).2 = Node.collect_ticket_details ∧
      (route_after_summary_prompt o s).1.ticket_slot_issue_type_asked = false ∧
      (route_after_summary_prompt o s).1.ticket_slot_description_asked = false ∧
      (route_after_summary_prompt o s).1.ticket_slot_priority_asked = false ∧
      (route_after_summary_prompt o s).1.appointment_details = s.appointment_details ∧
      (route_after_summary_prompt o s).1.ticket_details = s.ticket_details ∧
      (route_after_summary_prompt o s).1.user_request_type = s.user_request_type) := by
  have hconf := confirmation_extract_not_yes o (lastHumanContent s.conversation_history)
    s.confirmation_summary h
  have hne : (extract_info_with_llm o "confirmation" (lastHumanContent s.conversation_history)
      s.confirmation_summary == some "yes") = false := by
    rcases hconf with hc | hc <;> simp [hc]
  unfold route_after_summary_prompt
  simp only [hne]
  constructor
  · intro hrt
    simp [hrt]
  · intro hrt
    simp [hrt]

/-- Claim C8 witness: a "maybe" confirmation reply at the concrete ticket
confirmation state goes back to ticket collection with flags cleared and the
ticket struct and intent intact. -/
theorem claim_C8_witness :
    (confirmState.user_request_type = some "appointment" →
      (route_after_summary_prompt oracleMaybe confirmState).2 = Node.collect_appointment_details ∧
      (route_after_summary_prompt oracleMaybe confirmState).1.appointment_slot_service_type_asked = false ∧
      (route_after_summary_prompt oracleMaybe confirmState).1.appointment_slot_date_asked = false ∧
      (route_after_summary_prompt oracleMaybe confirmState).1.appointment_slot_time_asked = false ∧
      (route_after_summary_prompt oracleMaybe confirmState).1.appointment_slot_details_asked = false ∧
      (route_after_summary_prompt oracleMaybe confirmState).1.appointment_details = confirmState.appointment_details ∧
      (route_after_summary_prompt oracleMaybe confirmState).1.ticket_details = confirmState.ticket_details ∧
      (route_after_summary_prompt oracleMaybe confirmState).1.user_request_type = confirmState.user_request_type) ∧
    (confirmState.user_request_type = some "ticket" →
      (route_after_summary_prompt oracleMaybe confirmState).2 = Node.collect_ticket_details ∧
      (route_after_summary_prompt oracleMaybe confirmState).1.ticket_slot_issue_type_asked = false ∧
      (route_after_summary_prompt oracleMaybe confirmState).1.ticket_slot_description_asked = false ∧
      (route_after_summary_prompt oracleMaybe confirmState).1.ticket_slot_priority_asked = false ∧
      (route_after_summary_prompt oracleMaybe confirmState).1.appointment_details = confirmState.appointment_details ∧
      (route_after_summary_prompt oracleMaybe confirmState).1.ticket_details = confirmState.ticket_details ∧
      (route_after_summary_prompt oracleMaybe confirmState).1.user_request_type = confirmState.user_request_type) :=
  claim_C8_decline_returns_to_collection oracleMaybe confirmState (by
    intro out hout
    simp [oracleMaybe, oracleQ] at hout
    subst hout
    decide)

/-- Claim C9 counterexample. Two confirmation-stage states that differ only
in the turn counter produce exactly the same downstream tool call: the call
payload carries nothing derived from `(session_id, turn_counter)`. -/
theorem claim_C9_counterexample :
    tool_call_of confirmState = tool_call_of confirmState6 ∧
    confirmState.interaction_count ≠ confirmState6.interaction_count := by decide

/-- Claim C9 (amended). Every Tool Dispatcher call carries exactly the
dumped slot struct and nothing else: the payload (and the whole dispatch
step, up to the copied counter field) is independent of the turn counter,
so no correlation id derived from `(session_id, turn_counter)` is attached
and a retried dispatch is indistinguishable downstream. -/
theorem claim_C9_payload_only_slots :
    (∀ (s : BookingGraphState) (n : Nat),
      tool_call_of { s with interaction_count := n } = tool_call_of s) ∧
    (∀ (o : Oracle) (s : BookingGraphState) (n : Nat),
      execute_tool_node o { s with interaction_count := n } =
        { execute_tool_node o s with interaction_count := n }) ∧
    (∀ (s : BookingGraphState) (a : AppointmentSchema),
      s.user_request_type = some "appointment" → s.appointment_details = some a →
      tool_call_of s = some (ToolCall.schedule a)) ∧
    (∀ (s : BookingGraphState) (t : TicketSchema),
      s.user_request_type = some "ticket" → s.ticket_details = some t →
      tool_call_of s = some (ToolCall.openTicket t)) := by
  refine ⟨fun s n => rfl, fun o s n => rfl, ?_, ?_⟩
  · intro s a h1 h2
    simp [tool_call_of, h1, h2]
  · intro s t h1 h2
    simp [tool_call_of, h1, h2]

/-- Claim C9 witness: at the concrete confirmation state the dispatched call
is exactly the dumped ticket struct. -/
theorem claim_C9_witness :
    tool_call_of confirmState = some (ToolCall.openTicket ticketT0) :=
  claim_C9_payload_only_slots.2.2.2 confirmState ticketT0 rfl rfl

/-- Claim C10 (confirmed). The ticket priority is always one of "low",
"medium", "high": the freshly created struct carries "medium"; every graph
step preserves the property; and the ticket collector changes the priority
of an existing struct only when the extracted value is truthy and its
lowercase form is one of the three labels, storing that lowercase form. -/
theorem claim_C10_priority_invariant :
    freshTicket.priority = some "medium" ∧
    (∀ (o : Oracle) (n : Node) (s : BookingGraphState) (n' : Node) (s' : BookingGraphState),
      step o (n, s) = some (n', s') → priorityOK s → priorityOK s') ∧
    (∀ (o : Oracle) (s : BookingGraphState) (cd : TicketSchema) (t' : TicketSchema),
      s.ticket_details = some cd →
      (collect_ticket_details_node o s).ticket_details = some t' →
      t'.priority = cd.priority ∨
      (pyTruthy (extract_info_with_llm o "priority"
          (lastHumanContent s.conversation_history) (some cd.issue_type)) = true ∧
       (pyLower ((extract_info_with_llm o "priority"
            (lastHumanContent s.conversation_history) (some cd.issue_type)).getD "") = "low" ∨
        pyLower ((extract_info_with_llm o "priority"
            (lastHumanContent s.conversation_history) (some cd.issue_type)).getD "") = "medium" ∨
        pyLower ((extract_info_with_llm o "priority"
            (lastHumanContent s.conversation_history) (some cd.issue_type)).getD "") = "high") ∧
       t'.priority = some (pyLower ((extract_info_with_llm o "priority"
          (lastHumanContent s.conversation_history) (some cd.issue_type)).getD "")))) := by
  refine ⟨rfl, ?_, fun o s cd t' hs ht' => collect_ticket_priority_cases o s cd hs t' ht'⟩
  intro o n s n' s' hstep h
  cases n <;> simp only [step] at hstep
  · cases hc : classify_intent_node o s with
    | none => rw [hc] at hstep; exact Option.noConfusion hstep
    | some s1 =>
      rw [hc] at hstep
      simp only [Option.some.injEq, Prod.mk.injEq] at hstep
      obtain ⟨-, h2⟩ := hstep
      subst h2
      exact priorityOK_classify o s s1 hc h
  · simp only [Option.some.injEq, Prod.mk.injEq] at hstep
    obtain ⟨-, h2⟩ := hstep
    subst h2
    exact priorityOK_collect_a o s h
  · simp only [Option.some.injEq, Prod.mk.injEq] at hstep
    obtain ⟨-, h2⟩ := hstep
    subst h2
    exact priorityOK_collect_t o s h
  · simp only [Option.some.injEq, Prod.mk.injEq] at hstep
    obtain ⟨-, h2⟩ := hstep
    subst h2
    intro t ht
    rw [ticket_unchanged_route_summary, ticket_unchanged_summary] at ht
    exact h t ht
  · simp only [Option.some.injEq, Prod.mk.injEq] at hstep
    obtain ⟨-, h2⟩ := hstep
    subst h2
    exact priorityOK_exec o s
  · simp only [Option.some.injEq, Prod.mk.injEq] at hstep
    obtain ⟨-, h2⟩ := hstep
    subst h2
    intro t ht
    rw [ticket_unchanged_general] at ht
    exact h t ht

/-- Claim C10 witness: priority preservation applied to a concrete
general-chat step from the ticket confirmation state. -/
theorem claim_C10_witness : priorityOK (general_chat_node oracleQ confirmState) :=
  claim_C10_priority_invariant.2.1 oracleQ Node.general_chat confirmState Node.classify_intent
    (general_chat_node oracleQ confirmState) rfl (by
      intro t ht
      simp only [confirmState] at ht
      simp only [Option.some.injEq] at ht
      rw [← ht]
      simp [ticketT0])
